import Mathlib

/-!
Verification of the two core utilities of the KDTools/KDUpdater core:
the keyed factory registry (`KDGenericFactory`, kdgenericfactory.cpp)
and the opaque owning handle (`pimpl_ptr`).  The template
implementations live in headers that are not part of the inspected
sources; the registry and the handle are therefore modelled from the
specification together with the doc comments and unit tests in
kdgenericfactory.cpp and the pimpl_ptr translation unit.  Allocation is
modelled by threading a fresh-address counter: every `new` yields the
next unused address, and address `0` is the null pointer.
-/

namespace KDTools

/-- A machine address; `0` plays the role of the null pointer. -/
abbrev Ptr := Nat

/-- A created product: its address paired with a numeric tag identifying
the dynamic (concrete) type of the object, e.g. Apple/Pear/Orange in the
unit test. -/
abbrev Product := Ptr × Nat

/-- Modelled from the spec: `KDGenericFactory::FactoryFunction`, a
zero-argument production function returning a `T_Product*`
(kdgenericfactory.h is absent from the inspected sources; spec section 4.2
and the doc comments in kdgenericfactory.cpp).  The function receives the
fresh-address counter and returns the produced pointer together with the
updated counter, so that functions which allocate can be told apart from
functions which do not. -/
def FactoryFunction := Nat → Product × Nat

/-- Modelled from the spec: the production function that
`registerProduct<T_Concrete>(id)` stores — it default-constructs a
`T_Concrete` (type tag `ty`) with `new`, returning a freshly allocated,
non-null pointer upcast to the base type. -/
def defaultFn (ty : Nat) : FactoryFunction := fun n => ((n + 1, ty), n + 1)

/-- The `badfood` production function from the unit test in
kdgenericfactory.cpp: it always returns the fixed sentinel pointer
`0xBadF00d` and allocates nothing. -/
def badfood : FactoryFunction := fun n => ((0xBadF00d, 0), n)

/-- Modelled from the spec: the underlying `T_Map` container of the
registry (QHash/QMap), as an association list from identifiers to
production functions. -/
abbrev EntryList := List (String × FactoryFunction)

/-- Modelled from the spec: `T_Map::insert` as required by the registry
(QHash/QMap semantics): overwrite any existing entry with the same
identifier in place, otherwise add a new entry. -/
def insertEntry (id : String) (f : FactoryFunction) : EntryList → EntryList
  | [] => [(id, f)]
  | e :: rest => if e.1 = id then (id, f) :: rest else e :: insertEntry id f rest

/-- Modelled from the spec: `T_Map::remove`, removing every entry stored
under the given identifier (at most one in any reachable state). -/
def removeEntry (id : String) : EntryList → EntryList
  | [] => []
  | e :: rest => if e.1 = id then removeEntry id rest else e :: removeEntry id rest

/-- Modelled from the spec: `T_Map::find`, returning the production
function stored under the identifier, if any. -/
def lookupFn (id : String) : EntryList → Option FactoryFunction
  | [] => none
  | e :: rest => if e.1 = id then some e.2 else lookupFn id rest

/-- Modelled from the spec: the state of a `KDGenericFactory` — its map
from identifiers to production functions. -/
structure Registry where
  entries : EntryList

/-- A freshly constructed factory: no products registered. -/
def emptyRegistry : Registry := ⟨[]⟩

/-- Modelled from the spec: `KDGenericFactory::registerProductionFunction`
— stores the caller-supplied production function under the identifier,
replacing any previous entry. -/
def Registry.registerProductionFunction (r : Registry) (id : String)
    (f : FactoryFunction) : Registry :=
  ⟨insertEntry id f r.entries⟩

/-- Modelled from the spec: `KDGenericFactory::registerProduct<T>` —
registers the default-construct production function for concrete type
tag `ty` under the identifier. -/
def Registry.registerProduct (r : Registry) (id : String) (ty : Nat) : Registry :=
  r.registerProductionFunction id (defaultFn ty)

/-- Modelled from the spec: `KDGenericFactory::unregisterProduct` —
removes the entry under the identifier; nothing is done when no such
product is known. -/
def Registry.unregisterProduct (r : Registry) (id : String) : Registry :=
  ⟨removeEntry id r.entries⟩

/-- Modelled from the spec: the `find` step of `KDGenericFactory::create`. -/
def Registry.findFn (r : Registry) (id : String) : Option FactoryFunction :=
  lookupFn id r.entries

/-- Modelled from the spec: `KDGenericFactory::create(id) const` — looks
the identifier up; when found, invokes the stored production function
(threading the allocation counter) and returns the produced pointer;
when not found, returns null and allocates nothing. -/
def Registry.create (r : Registry) (id : String) (n : Nat) : Option Product × Nat :=
  match r.findFn id with
  | none => (none, n)
  | some f => (some (f n).1, (f n).2)

/-- Modelled from the spec: `KDGenericFactory::productCount() const` —
the size of the underlying map. -/
def Registry.productCount (r : Registry) : Nat := r.entries.length

/-- Modelled from the spec: `KDGenericFactory::availableProducts() const`
— the keys of the underlying map, in container order. -/
def Registry.availableProducts (r : Registry) : List String :=
  r.entries.map Prod.fst

/-- Whether an identifier currently has a registered entry. -/
def Registry.containsId (r : Registry) (id : String) : Bool :=
  (r.findFn id).isSome

/-- The operations a client can perform on a factory. -/
inductive Op where
  | regProduct (id : String) (ty : Nat)
  | regFn (id : String) (f : FactoryFunction)
  | unreg (id : String)
  | create (id : String)

/-- A factory together with the allocation counter. -/
structure FState where
  reg : Registry
  ctr : Nat

/-- One client operation on a factory state, returning the successor
state and the product handed out, if any. -/
def stepOp (s : FState) : Op → FState × Option Product
  | .regProduct id ty => (⟨s.reg.registerProduct id ty, s.ctr⟩, none)
  | .regFn id f => (⟨s.reg.registerProductionFunction id f, s.ctr⟩, none)
  | .unreg id => (⟨s.reg.unregisterProduct id, s.ctr⟩, none)
  | .create id => (⟨s.reg, (s.reg.create id s.ctr).2⟩, (s.reg.create id s.ctr).1)

/-- Runs a sequence of client operations from a freshly constructed
factory. -/
def runOps (ops : List Op) : FState :=
  ops.foldl (fun s op => (stepOp s op).1) ⟨emptyRegistry, 0⟩

/-- Modelled from the spec: the state of a `pimpl_ptr` — the single
owned pointer (pimpl_ptr.h is absent from the inspected sources; spec
section 4.1 and the doc comments of the pimpl_ptr translation unit). -/
structure PimplPtr where
  d : Ptr

/-- Modelled from the spec: `pimpl_ptr::get()` — returns the contained
pointer, transferring no ownership. -/
def PimplPtr.get (h : PimplPtr) : Ptr := h.d

/-- Modelled from the spec: the default constructor `pimpl_ptr()` — owns
a newly allocated, standard-constructed instance; the allocation counter
is threaded as elsewhere and `new` never returns null. -/
def pimplDefault (n : Nat) : PimplPtr × Nat := (⟨n + 1⟩, n + 1)

/-- Modelled from the spec: the constructor `pimpl_ptr(T* t)` — takes
ownership of the caller-supplied pointer, which may be null. -/
def pimplFromRaw (p : Ptr) : PimplPtr := ⟨p⟩

/-- Modelled from the spec: `pimpl_ptr::swap` — exchanges the contained
pointers of the two handles; the allocation counter is threaded to show
that swapping neither allocates nor deallocates. -/
def pimplSwap (a b : PimplPtr) (n : Nat) : (PimplPtr × PimplPtr) × Nat :=
  ((⟨b.d⟩, ⟨a.d⟩), n)

/-- Modelled from the spec: the boolean conversion of `pimpl_ptr` —
reports whether the handle owns a non-null object. -/
def PimplPtr.toBool (h : PimplPtr) : Bool := h.d != 0

/-! Helper lemmas about the map operations. -/

theorem lookupFn_insertEntry_self (id : String) (f : FactoryFunction)
    (l : EntryList) : lookupFn id (insertEntry id f l) = some f := by
  induction l with
  | nil => simp [insertEntry, lookupFn]
  | cons e rest ih =>
    by_cases h : e.1 = id
    · simp [insertEntry, h, lookupFn]
    · simp [insertEntry, h, lookupFn, ih]

theorem length_insertEntry (id : String) (f : FactoryFunction) (l : EntryList) :
    (insertEntry id f l).length =
      if (lookupFn id l).isSome then l.length else l.length + 1 := by
  induction l with
  | nil => simp [insertEntry, lookupFn]
  | cons e rest ih =>
    by_cases h : e.1 = id
    · simp [insertEntry, h, lookupFn]
    · simp only [insertEntry, h, if_false, lookupFn, List.length_cons, ih]
      split <;> simp

theorem mem_keys_insertEntry (a id : String) (f : FactoryFunction)
    (l : EntryList) :
    a ∈ (insertEntry id f l).map Prod.fst ↔ a = id ∨ a ∈ l.map Prod.fst := by
  induction l with
  | nil => simp [insertEntry]
  | cons e rest ih =>
    by_cases h : e.1 = id
    · subst h
      simp [insertEntry]
    · simp [insertEntry, h, ih]
      tauto

theorem nodup_keys_insertEntry (id : String) (f : FactoryFunction)
    (l : EntryList) (h : (l.map Prod.fst).Nodup) :
    ((insertEntry id f l).map Prod.fst).Nodup := by
  induction l with
  | nil => simp [insertEntry]
  | cons e rest ih =>
    simp only [List.map_cons, List.nodup_cons] at h
    by_cases he : e.1 = id
    · subst he
      simpa [insertEntry] using h
    · have : ¬ e.1 ∈ (insertEntry id f rest).map Prod.fst := by
        rw [mem_keys_insertEntry]
        push_neg
        exact ⟨he, h.1⟩
      simp only [insertEntry, he, if_false, List.map_cons, List.nodup_cons]
      exact ⟨this, ih h.2⟩

theorem lookupFn_removeEntry_self (id : String) (l : EntryList) :
    lookupFn id (removeEntry id l) = none := by
  induction l with
  | nil => simp [removeEntry, lookupFn]
  | cons e rest ih =>
    by_cases h : e.1 = id
    · simp [removeEntry, h, ih]
    · simp [removeEntry, h, lookupFn, ih]

theorem lookupFn_eq_none_of_not_mem (id : String) (l : EntryList)
    (h : id ∉ l.map Prod.fst) : lookupFn id l = none := by
  induction l with
  | nil => rfl
  | cons e rest ih =>
    simp only [List.map_cons, List.mem_cons] at h
    push_neg at h
    have : e.1 ≠ id := fun he => h.1 he.symm
    simp [lookupFn, this, ih h.2]

theorem removeEntry_eq_self (id : String) (l : EntryList)
    (h : lookupFn id l = none) : removeEntry id l = l := by
  induction l with
  | nil => rfl
  | cons e rest ih =>
    by_cases he : e.1 = id
    · simp [lookupFn, he] at h
    · simp only [lookupFn, he, if_false] at h
      simp [removeEntry, he, ih h]

theorem lookupFn_pos_length (id : String) (l : EntryList)
    (h : (lookupFn id l).isSome) : 0 < l.length := by
  cases l with
  | nil => simp [lookupFn] at h
  | cons e rest => simp

theorem length_removeEntry_nodup (id : String) (l : EntryList)
    (h : (l.map Prod.fst).Nodup) :
    (removeEntry id l).length =
      if (lookupFn id l).isSome then l.length - 1 else l.length := by
  induction l with
  | nil => simp [removeEntry, lookupFn]
  | cons e rest ih =>
    simp only [List.map_cons, List.nodup_cons] at h
    by_cases he : e.1 = id
    · have hnone : lookupFn id rest = none := by
        apply lookupFn_eq_none_of_not_mem
        rw [← he]
        exact h.1
      simp [removeEntry, he, lookupFn, removeEntry_eq_self id rest hnone]
    · simp only [removeEntry, he, if_false, List.length_cons, lookupFn, ih h.2]
      by_cases hs : (lookupFn id rest).isSome
      · have := lookupFn_pos_length id rest hs
        simp [hs]
        omega
      · simp [hs]

theorem mem_keys_removeEntry (a id : String) (l : EntryList)
    (h : a ∈ (removeEntry id l).map Prod.fst) : a ∈ l.map Prod.fst := by
  induction l with
  | nil => simp [removeEntry] at h
  | cons e rest ih =>
    by_cases he : e.1 = id
    · simp only [removeEntry, he, if_true] at h
      simp [ih h]
    · simp only [removeEntry, he, if_false, List.map_cons, List.mem_cons] at h
      rcases h with h | h
      · simp [h]
      · simp [ih h]

theorem nodup_keys_removeEntry (id : String) (l : EntryList)
    (h : (l.map Prod.fst).Nodup) :
    ((removeEntry id l).map Prod.fst).Nodup := by
  induction l with
  | nil => simp [removeEntry]
  | cons e rest ih =>
    simp only [List.map_cons, List.nodup_cons] at h
    by_cases he : e.1 = id
    · simp only [removeEntry, he, if_true]
      exact ih h.2
    · simp only [removeEntry, he, if_false, List.map_cons, List.nodup_cons]
      exact ⟨fun hm => h.1 (mem_keys_removeEntry _ _ _ hm), ih h.2⟩

theorem nodup_keys_stepOp (s : FState) (op : Op)
    (h : s.reg.availableProducts.Nodup) :
    ((stepOp s op).1).reg.availableProducts.Nodup := by
  cases op with
  | regProduct id ty =>
    exact nodup_keys_insertEntry id _ s.reg.entries h
  | regFn id f =>
    exact nodup_keys_insertEntry id f s.reg.entries h
  | unreg id =>
    exact nodup_keys_removeEntry id s.reg.entries h
  | create id => exact h

theorem nodup_keys_foldl (ops : List Op) (s : FState)
    (h : s.reg.availableProducts.Nodup) :
    ((ops.foldl (fun s op => (stepOp s op).1) s).reg.availableProducts).Nodup := by
  induction ops generalizing s with
  | nil => exact h
  | cons op rest ih => exact ih _ (nodup_keys_stepOp s op h)

theorem nodup_keys_runOps (ops : List Op) :
    ((runOps ops).reg.availableProducts).Nodup := by
  apply nodup_keys_foldl
  simp [emptyRegistry, Registry.availableProducts]

theorem containsId_false_findFn (r : Registry) (id : String)
    (h : r.containsId id = false) : r.findFn id = none := by
  unfold Registry.containsId at h
  cases hf : r.findFn id with
  | none => rfl
  | some f => rw [hf] at h; simp at h

/-! The claims. -/

/-- Claim C1: for every registry state and identifier `id`,
`registerProduct` under `id` increases `productCount()` by exactly one
when `id` was not previously registered; when `id` was already
registered, `productCount()` is unchanged and the old construction
function is replaced, so a subsequent `create(id)` uses the newly
registered function (it produces a fresh instance of the newly
registered concrete type `ty`). -/
theorem registerProduct_count_and_replace (r : Registry) (id : String)
    (ty n : Nat) :
    (r.registerProduct id ty).productCount =
      (if r.containsId id then r.productCount else r.productCount + 1) ∧
    (r.registerProduct id ty).create id n = (some (n + 1, ty), n + 1) := by
  constructor
  · simp [Registry.registerProduct, Registry.registerProductionFunction,
      Registry.productCount, Registry.containsId, Registry.findFn,
      length_insertEntry]
  · simp [Registry.registerProduct, Registry.registerProductionFunction,
      Registry.create, Registry.findFn, lookupFn_insertEntry_self, defaultFn]

/-- Claim C2: for every registry state and identifier `id` with no
registered entry, `create(id)` returns a null result, allocates nothing,
and leaves the whole factory state (mapping and counter) unchanged. -/
theorem create_unregistered_null (r : Registry) (id : String) (n : Nat)
    (h : r.containsId id = false) :
    r.create id n = (none, n) ∧
    (stepOp ⟨r, n⟩ (Op.create id)).1 = ⟨r, n⟩ := by
  have hf : r.findFn id = none := containsId_false_findFn r id h
  have hc : r.create id n = (none, n) := by simp [Registry.create, hf]
  exact ⟨hc, by simp [stepOp, hc]⟩

/-- Claim C2 witness: in the registry holding only Apple, creating a
Cherry returns null and changes nothing. -/
theorem create_unregistered_null_witness :
    (emptyRegistry.registerProduct "Apple" 1).containsId "Cherry" = false ∧
    ((emptyRegistry.registerProduct "Apple" 1).create "Cherry" 5 = (none, 5) ∧
     (stepOp ⟨emptyRegistry.registerProduct "Apple" 1, 5⟩
        (Op.create "Cherry")).1 = ⟨emptyRegistry.registerProduct "Apple" 1, 5⟩) :=
  ⟨rfl, create_unregistered_null (emptyRegistry.registerProduct "Apple" 1)
    "Cherry" 5 rfl⟩

/-- Claim C3 counterexample: the claim that two `create` calls with the
same registered identifier always return distinct instances is false —
the unit test registers the `badfood` production function under "Pear",
and then every `create("Pear")` returns the same fixed sentinel pointer
`0xBadF00d`, so two consecutive calls return the same instance. -/
theorem create_same_instance_counterexample :
    (((emptyRegistry.registerProduct "Apple" 1).registerProductionFunction
        "Pear" badfood).containsId "Pear" = true) ∧
    (((emptyRegistry.registerProduct "Apple" 1).registerProductionFunction
        "Pear" badfood).create "Pear" 5).1 = some (0xBadF00d, 0) ∧
    (((emptyRegistry.registerProduct "Apple" 1).registerProductionFunction
        "Pear" badfood).create "Pear"
      ((((emptyRegistry.registerProduct "Apple" 1).registerProductionFunction
        "Pear" badfood).create "Pear" 5).2)).1 = some (0xBadF00d, 0) :=
  ⟨rfl, rfl, rfl⟩

/-- Claim C3 (amended): for every identifier whose registered entry is
the default-construct production function stored by `registerProduct`,
each `create(id)` call allocates a fresh instance, so two consecutive
calls return distinct instances; a caller-supplied production function
registered through `registerProductionFunction` may instead return the
same pointer on every call. -/
theorem create_fresh_for_registerProduct (r : Registry) (id : String)
    (ty n : Nat) (h : r.findFn id = some (defaultFn ty)) :
    (r.create id n).1 = some (n + 1, ty) ∧
    (r.create id ((r.create id n).2)).1 = some ((r.create id n).2 + 1, ty) ∧
    (r.create id n).1 ≠ (r.create id ((r.create id n).2)).1 := by
  have h1 : r.create id n = (some (n + 1, ty), n + 1) := by
    simp [Registry.create, h, defaultFn]
  have h2 : r.create id (n + 1) = (some (n + 2, ty), n + 2) := by
    simp [Registry.create, h, defaultFn]
  refine ⟨by simp [h1], by simp [h1, h2], by simp [h1, h2]⟩

/-- Claim C3 (amended) witness: with Apple registered via
`registerProduct`, two consecutive creations yield addresses 1 and 2. -/
theorem create_fresh_for_registerProduct_witness :
    (emptyRegistry.registerProduct "Apple" 1).findFn "Apple" =
      some (defaultFn 1) ∧
    (((emptyRegistry.registerProduct "Apple" 1).create "Apple" 0).1 =
        some (0 + 1, 1) ∧
     ((emptyRegistry.registerProduct "Apple" 1).create "Apple"
        (((emptyRegistry.registerProduct "Apple" 1).create "Apple" 0).2)).1 =
        some ((((emptyRegistry.registerProduct "Apple" 1).create "Apple" 0).2) + 1, 1) ∧
     ((emptyRegistry.registerProduct "Apple" 1).create "Apple" 0).1 ≠
       ((emptyRegistry.registerProduct "Apple" 1).create "Apple"
        (((emptyRegistry.registerProduct "Apple" 1).create "Apple" 0).2)).1) :=
  ⟨rfl, create_fresh_for_registerProduct
    (emptyRegistry.registerProduct "Apple" 1) "Apple" 1 0 rfl⟩

/-- Claim C4: in every reachable factory state — after any sequence of
register, registerProductionFunction, unregister and create operations
from a fresh factory — `availableProducts()` has length equal to
`productCount()` and contains no duplicate identifiers. -/
theorem reachable_products_invariant (ops : List Op) :
    ((runOps ops).reg.availableProducts).length =
      (runOps ops).reg.productCount ∧
    ((runOps ops).reg.availableProducts).Nodup :=
  ⟨by simp [Registry.availableProducts, Registry.productCount],
   nodup_keys_runOps ops⟩

/-- Claim C5: after registering a production function `f` for `id` via
`registerProductionFunction`, `create(id)` returns exactly the value `f`
produces (not a default-constructed product), and registration has the
same replace-on-duplicate effect on `productCount()` as
`registerProduct`. -/
theorem registerProductionFunction_used_by_create (r : Registry)
    (id : String) (f : FactoryFunction) (ty n : Nat) :
    (r.registerProductionFunction id f).create id n = (some (f n).1, (f n).2) ∧
    (r.registerProductionFunction id f).productCount =
      (if r.containsId id then r.productCount else r.productCount + 1) ∧
    (r.registerProductionFunction id f).productCount =
      (r.registerProduct id ty).productCount := by
  refine ⟨?_, ?_, ?_⟩
  · simp [Registry.registerProductionFunction, Registry.create,
      Registry.findFn, lookupFn_insertEntry_self]
  · simp [Registry.registerProductionFunction, Registry.productCount,
      Registry.containsId, Registry.findFn, length_insertEntry]
  · simp [Registry.registerProduct, Registry.registerProductionFunction,
      Registry.productCount, length_insertEntry]

/-- Claim C6: `unregisterProduct(id)` removes the entry for `id` when
present — a subsequent `create(id)` returns null and `productCount()`
decreases by one — and when `id` has no entry it is a silent no-op
leaving the registry (hence `productCount()`) unchanged.  The
no-duplicate hypothesis holds in every reachable state. -/
theorem unregisterProduct_removes_or_noop (r : Registry) (id : String)
    (n : Nat) (h : r.availableProducts.Nodup) :
    (r.unregisterProduct id).create id n = (none, n) ∧
    (r.containsId id = true →
      (r.unregisterProduct id).productCount + 1 = r.productCount) ∧
    (r.containsId id = false → r.unregisterProduct id = r) := by
  refine ⟨?_, ?_, ?_⟩
  · simp [Registry.unregisterProduct, Registry.create, Registry.findFn,
      lookupFn_removeEntry_self]
  · intro hc
    unfold Registry.containsId at hc
    have hlen := length_removeEntry_nodup id r.entries h
    have hpos := lookupFn_pos_length id r.entries (by
      simpa [Registry.findFn] using hc)
    simp only [Registry.findFn] at hc
    rw [hc] at hlen
    simp only [Registry.unregisterProduct, Registry.productCount, hlen,
      if_true]
    omega
  · intro hc
    have hf : r.findFn id = none := containsId_false_findFn r id hc
    unfold Registry.unregisterProduct
    rw [removeEntry_eq_self id r.entries (by simpa [Registry.findFn] using hf)]

/-- Claim C6 witness: in the registry holding Apple and Pear, removing
Apple empties its entry (create then returns null, the count drops from
2 to 1), and removing the never-registered Cherry changes nothing. -/
theorem unregisterProduct_removes_or_noop_witness :
    ((emptyRegistry.registerProduct "Apple" 1).registerProduct "Pear" 2).availableProducts.Nodup ∧
    ((((emptyRegistry.registerProduct "Apple" 1).registerProduct "Pear" 2).unregisterProduct
        "Apple").create "Apple" 9 = (none, 9) ∧
     (((emptyRegistry.registerProduct "Apple" 1).registerProduct "Pear" 2).containsId
        "Apple" = true →
      (((emptyRegistry.registerProduct "Apple" 1).registerProduct "Pear" 2).unregisterProduct
        "Apple").productCount + 1 =
        ((emptyRegistry.registerProduct "Apple" 1).registerProduct "Pear" 2).productCount) ∧
     (((emptyRegistry.registerProduct "Apple" 1).registerProduct "Pear" 2).containsId
        "Apple" = false →
      ((emptyRegistry.registerProduct "Apple" 1).registerProduct "Pear" 2).unregisterProduct
        "Apple" = (emptyRegistry.registerProduct "Apple" 1).registerProduct "Pear" 2)) :=
  ⟨by decide, unregisterProduct_removes_or_noop
    ((emptyRegistry.registerProduct "Apple" 1).registerProduct "Pear" 2)
    "Apple" 9 (by decide)⟩

/-- Claim C7: swapping two opaque owning handles exchanges their owned
pointers — afterwards the first holds the prior pointer of the second
and vice versa — and performs no allocation or deallocation (the
allocation counter is untouched). -/
theorem pimplSwap_exchanges (a b : PimplPtr) (n : Nat) :
    ((pimplSwap a b n).1.1).get = b.get ∧
    ((pimplSwap a b n).1.2).get = a.get ∧
    (pimplSwap a b n).2 = n :=
  ⟨rfl, rfl, rfl⟩

/-- Claim C8: an opaque owning handle constructed from a raw pointer `p`
satisfies `get() == p`, including when `p` is the null pointer. -/
theorem pimplFromRaw_get (p : Ptr) :
    (pimplFromRaw p).get = p ∧ (pimplFromRaw 0).get = 0 :=
  ⟨rfl, rfl⟩

/-- Claim C9: a default-constructed opaque owning handle owns a non-null
object, and for every handle the boolean conversion is true exactly when
the owned pointer is non-null. -/
theorem pimplDefault_nonnull_and_toBool (n : Nat) (h : PimplPtr) :
    (pimplDefault n).1.get ≠ 0 ∧ (h.toBool = true ↔ h.get ≠ 0) := by
  constructor
  · simp [pimplDefault, PimplPtr.get]
  · simp [PimplPtr.toBool, PimplPtr.get]

/-- Claim C10: `create(id)` is a const operation — for every factory
state and every identifier, registered or not, the step for `create`
leaves the registry (its mapping, `productCount()`, and
`availableProducts()`) unchanged. -/
theorem create_is_const (s : FState) (id : String) :
    ((stepOp s (Op.create id)).1).reg = s.reg ∧
    ((stepOp s (Op.create id)).1).reg.productCount = s.reg.productCount ∧
    ((stepOp s (Op.create id)).1).reg.availableProducts =
      s.reg.availableProducts :=
  ⟨rfl, rfl, rfl⟩

end KDTools
